import Mathlib

set_option maxHeartbeats 1000000

/-!
Verification development for the menu-catalog CRUD service in
`backend/server.py`.

The MongoDB collection `db.menu_items` is modelled as a `List Doc` in
insertion order.  Driver calls are modelled with their single-document,
first-match semantics: `find_one` is `List.find?`, `update_one` rewrites the
first matching document, `delete_one` removes the first matching document and
reports the deleted count, `delete_many({})` empties the list and
`insert_one`/`insert_many` append.

`datetime` values are abstracted as integers (`Time`).  A `created_at` value
stored in a document is either an ISO-8601 string encoding a time `t`
(constructor `CreatedAtVal.isoStr`) or a native datetime (`CreatedAtVal.dt`);
`datetime.fromisoformat` recovers the encoded time, so the handlers' step
`if isinstance(item.get('created_at'), str): item['created_at'] =
datetime.fromisoformat(...)` is the map `normCreatedAt` below.

Request bodies are JSON objects, modelled as association lists of
`String × JVal`; the pydantic models `MenuItemCreate` and `MenuItemUpdate`
are parsed from them by `parseCreate` / `parseUpdate`, which look up exactly
the declared field names and ignore every other key (pydantic's default
`extra="ignore"` behaviour).  `MenuItemUpdate` distinguishes an unset field
from one explicitly set (possibly to `null`), which models
`model_dump(exclude_unset=True)`.
-/

abbrev Time := Int

abbrev Price := Rat

/-- A `created_at` value as it sits in a stored document: either an ISO-8601
string encoding time `t`, or a native datetime. -/
inductive CreatedAtVal where
  | isoStr (t : Time)
  | dt (t : Time)
deriving DecidableEq

/-- Models `if isinstance(item.get('created_at'), str):
item['created_at'] = datetime.fromisoformat(item['created_at'])`. -/
def normCreatedAt : CreatedAtVal → CreatedAtVal
  | .isoStr t => .dt t
  | .dt t => .dt t

/-- A document of the `menu_items` collection (without Mongo's internal
`_id`, which every read projects away with `{"_id": 0}`).  The seven mutable
fields are `Option`-valued because Mongo documents are schemaless and a
partial update may `$set` any of them to `null`. -/
structure Doc where
  id : String
  name : Option String
  description : Option String
  price : Option Price
  category : Option String
  tag : Option String
  image_url : Option String
  is_available : Option Bool
  created_at : CreatedAtVal
deriving DecidableEq

/-- The `MenuItem` pydantic response model (`created_at` is a native
datetime in a response). -/
structure MenuItem where
  id : String
  name : String
  description : String
  price : Price
  category : String
  tag : Option String
  image_url : Option String
  is_available : Bool
  created_at : Time
deriving DecidableEq

/-- The `MenuItemCreate` pydantic request model, with its field defaults. -/
structure MenuItemCreate where
  name : String
  description : String
  price : Price
  category : String
  tag : Option String := none
  image_url : Option String := none
  is_available : Bool := true
deriving DecidableEq

/-- State of one field of `MenuItemUpdate`: never supplied by the caller
(`unset`, excluded by `model_dump(exclude_unset=True)`), or supplied with a
value, possibly `null` (`set v`). -/
inductive Patch (α : Type) where
  | unset
  | set (v : Option α)
deriving DecidableEq

/-- Whether the field would appear in `model_dump(exclude_unset=True)`. -/
def Patch.isSet : Patch α → Bool
  | .unset => false
  | .set _ => true

/-- The value `$set` assigns to the field, or the document's old value when
the field is not part of the patch. -/
def Patch.apply (p : Patch α) (old : Option α) : Option α :=
  match p with
  | .unset => old
  | .set v => v

/-- The `MenuItemUpdate` pydantic request model; every field is
`Optional[...] = None` in the source and may independently be unset. -/
structure MenuItemUpdate where
  name : Patch String := .unset
  description : Patch String := .unset
  price : Patch Price := .unset
  category : Patch String := .unset
  tag : Patch String := .unset
  image_url : Patch String := .unset
  is_available : Patch Bool := .unset
deriving DecidableEq

/-- Whether `item_update.model_dump(exclude_unset=True)` is a non-empty
dict, i.e. the truth value of `if update_data:`. -/
def updateNonEmpty (u : MenuItemUpdate) : Bool :=
  u.name.isSet || u.description.isSet || u.price.isSet || u.category.isSet ||
    u.tag.isSet || u.image_url.isSet || u.is_available.isSet

/-- The effect of `{"$set": update_data}` on one document: exactly the keys
present in `update_data` are rewritten; `id` and `created_at` are not keys of
`MenuItemUpdate`, hence never in `update_data`. -/
def applySet (u : MenuItemUpdate) (d : Doc) : Doc :=
  { d with
    name := u.name.apply d.name
    description := u.description.apply d.description
    price := u.price.apply d.price
    category := u.category.apply d.category
    tag := u.tag.apply d.tag
    image_url := u.image_url.apply d.image_url
    is_available := u.is_available.apply d.is_available }

/-- `db.menu_items.find_one({"id": item_id}, {"_id": 0})`. -/
def find_one (item_id : String) (st : List Doc) : Option Doc :=
  st.find? (fun d => d.id == item_id)

/-- `db.menu_items.update_one({"id": item_id}, {"$set": update_data})`:
rewrites the first matching document, if any. -/
def update_one (item_id : String) (u : MenuItemUpdate) : List Doc → List Doc
  | [] => []
  | d :: ds =>
    if d.id == item_id then applySet u d :: ds
    else d :: update_one item_id u ds

/-- `db.menu_items.delete_one({"id": item_id})`: removes the first matching
document; the first component is `result.deleted_count`. -/
def delete_one (item_id : String) : List Doc → Nat × List Doc
  | [] => (0, [])
  | d :: ds =>
    if d.id == item_id then (1, ds)
    else
      let r := delete_one item_id ds
      (r.1, d :: r.2)

/-- An `HTTPException`. -/
structure Err where
  status : Nat
  detail : String
deriving DecidableEq

def notFoundErr : Err := ⟨404, "Item not found"⟩

/-- `GET /api/menu`: `find({}).to_list(1000)` followed by the per-item
`created_at` string-to-datetime normalisation loop. -/
def get_menu_items (st : List Doc) : List Doc :=
  (st.take 1000).map (fun item => { item with created_at := normCreatedAt item.created_at })

/-- `GET /api/menu/{item_id}`.  Returns the handler outcome together with
the (unchanged) collection state. -/
def get_menu_item (st : List Doc) (item_id : String) : Except Err Doc × List Doc :=
  match find_one item_id st with
  | none => (.error notFoundErr, st)
  | some item => (.ok { item with created_at := normCreatedAt item.created_at }, st)

/-- `POST /api/menu`: the generated `str(uuid.uuid4())` and the clock
reading `datetime.now(timezone.utc)` enter as the parameters `genId` and
`now`.  The full `MenuItem` is built from the input, its dump gets
`created_at` re-serialized with `.isoformat()`, and that document is
inserted; the handler returns the `MenuItem`. -/
def create_menu_item (genId : String) (now : Time) (st : List Doc)
    (item_input : MenuItemCreate) : MenuItem × List Doc :=
  let menu_item : MenuItem :=
    { id := genId
      name := item_input.name
      description := item_input.description
      price := item_input.price
      category := item_input.category
      tag := item_input.tag
      image_url := item_input.image_url
      is_available := item_input.is_available
      created_at := now }
  let doc : Doc :=
    { id := menu_item.id
      name := some menu_item.name
      description := some menu_item.description
      price := some menu_item.price
      category := some menu_item.category
      tag := menu_item.tag
      image_url := menu_item.image_url
      is_available := some menu_item.is_available
      created_at := .isoStr menu_item.created_at }
  (menu_item, st ++ [doc])

/-- `PUT /api/menu/{item_id}`: look up the item (404 if absent), apply
`update_one` only when the exclude-unset dump is non-empty, then re-read and
normalise `created_at`.  The `.error ⟨500, _⟩` branch models the uncaught
`AttributeError` the source would raise if the re-read found nothing; it is
unreachable in this sequential model. -/
def update_menu_item (st : List Doc) (item_id : String)
    (item_update : MenuItemUpdate) : Except Err Doc × List Doc :=
  match find_one item_id st with
  | none => (.error notFoundErr, st)
  | some _ =>
    let st' := if updateNonEmpty item_update then update_one item_id item_update st else st
    match find_one item_id st' with
    | some updated_item =>
      (.ok { updated_item with created_at := normCreatedAt updated_item.created_at }, st')
    | none => (.error ⟨500, "Internal Server Error"⟩, st')

/-- `DELETE /api/menu/{item_id}`: run `delete_one`, 404 when
`deleted_count == 0`, else the success message. -/
def delete_menu_item (st : List Doc) (item_id : String) : Except Err String × List Doc :=
  let r := delete_one item_id st
  if r.1 == 0 then (.error notFoundErr, r.2)
  else (.ok "Item deleted successfully", r.2)

/-- `db.menu_items.delete_many({})`. -/
def delete_many_all (_st : List Doc) : List Doc := []

/-- The four hardcoded seed records of `POST /api/menu/seed`; each gets its
own `str(uuid.uuid4())` and `datetime.now(timezone.utc).isoformat()`,
supplied here as `ids i` and `times i`. -/
def initial_items (ids : Fin 4 → String) (times : Fin 4 → Time) : List Doc :=
  [ { id := ids 0
      name := some "Original Beef Bulgogi"
      description := some "Émincé de bœuf bulgogi, oignons rouges, poivrons, cheddar, salade, sauce secrète."
      price := (13.90 : Price)
      category := some "burger"
      tag := some "Signature"
      image_url := some "https://images.pexels.com/photos/5836779/pexels-photo-5836779.jpeg"
      is_available := some true
      created_at := .isoStr (times 0) },
    { id := ids 1
      name := some "Chicken Wasabi"
      description := some "Poulet frit à la coréenne, chou mariné, carottes, coriandre, cheddar, sauce mayo wasabi."
      price := (12.90 : Price)
      category := some "burger"
      tag := some "Hot"
      image_url := some "https://images.pexels.com/photos/4551304/pexels-photo-4551304.jpeg"
      is_available := some true
      created_at := .isoStr (times 1) },
    { id := ids 2
      name := some "Seoul Smash"
      description := some "Double steak smashé, cheddar, cornichons, oignons rouges, salade, sauce bulgogi."
      price := (13.90 : Price)
      category := some "burger"
      tag := some "Smash"
      image_url := some "https://images.pexels.com/photos/262897/pexels-photo-262897.jpeg"
      is_available := some true
      created_at := .isoStr (times 2) },
    { id := ids 3
      name := some "UFO Sucré"
      description := some "Base Glace ou Crème mousseline avec topping au choix (Oreo, Daim, M&M's...)."
      price := (3.50 : Price)
      category := some "dessert"
      tag := some "Sucré"
      image_url := some "https://images.pexels.com/photos/2313686/pexels-photo-2313686.jpeg"
      is_available := some true
      created_at := .isoStr (times 3) } ]

/-- `POST /api/menu/seed`: `delete_many({})` then `insert_many` of the four
hardcoded records, returning the count message. -/
def seed_menu (ids : Fin 4 → String) (times : Fin 4 → Time) (st : List Doc) :
    String × List Doc :=
  let cleared := delete_many_all st
  let items := initial_items ids times
  ("Seeded " ++ toString items.length ++ " menu items successfully",
    cleared ++ items)

/-- A JSON value as it appears in a request body (the shapes relevant to
these models). -/
inductive JVal where
  | jstr (s : String)
  | jnum (q : Rat)
  | jbool (b : Bool)
  | jnull
deriving DecidableEq

/-- A JSON object body: an association list of keys to values. -/
abbrev Body := List (String × JVal)

/-- Look up a key in a request body. -/
def lookupKey (k : String) (body : Body) : Option JVal :=
  (body.find? (fun p => p.1 == k)).map (fun p => p.2)

/-- Validate a required `str` field. -/
def asStr : JVal → Option String
  | .jstr s => some s
  | _ => none

/-- Validate a required `float` field (JSON number). -/
def asNum : JVal → Option Price
  | .jnum q => some q
  | _ => none

/-- Validate a required `bool` field. -/
def asBool : JVal → Option Bool
  | .jbool b => some b
  | _ => none

/-- Validate an `Optional[str]` field value: `null` is accepted as `None`. -/
def asOptStr : JVal → Option (Option String)
  | .jstr s => some (some s)
  | .jnull => some none
  | _ => none

/-- Validate an `Optional[float]` field value. -/
def asOptNum : JVal → Option (Option Price)
  | .jnum q => some (some q)
  | .jnull => some none
  | _ => none

/-- Validate an `Optional[bool]` field value. -/
def asOptBool : JVal → Option (Option Bool)
  | .jbool b => some (some b)
  | .jnull => some none
  | _ => none

/-- Parse a required field: absent or ill-typed means a validation error. -/
def reqField (val : JVal → Option α) (k : String) (body : Body) : Option α :=
  match lookupKey k body with
  | none => none
  | some v => val v

/-- Parse an optional field with a default: absent yields the default. -/
def optField (val : JVal → Option α) (dflt : α) (k : String) (body : Body) : Option α :=
  match lookupKey k body with
  | none => some dflt
  | some v => val v

/-- Parse a field of `MenuItemUpdate`: absent is `unset` (excluded from the
exclude-unset dump), present must validate. -/
def patchField (val : JVal → Option (Option α)) (k : String) (body : Body) :
    Option (Patch α) :=
  match lookupKey k body with
  | none => some .unset
  | some v => (val v).map .set

/-- Pydantic validation of a `MenuItemCreate` from a JSON body.  Only the
seven declared field names are consulted; every other key is ignored
(pydantic's default extra-field policy).  `none` is a 422 validation
error. -/
def parseCreate (body : Body) : Option MenuItemCreate := do
  let name ← reqField asStr "name" body
  let description ← reqField asStr "description" body
  let price ← reqField asNum "price" body
  let category ← reqField asStr "category" body
  let tag ← optField asOptStr none "tag" body
  let image_url ← optField asOptStr none "image_url" body
  let is_available ← optField asBool true "is_available" body
  some { name := name, description := description, price := price,
         category := category, tag := tag, image_url := image_url,
         is_available := is_available }

/-- Pydantic validation of a `MenuItemUpdate` from a JSON body.  Only the
seven declared field names are consulted; every other key (including `id`
and `created_at`) is ignored. -/
def parseUpdate (body : Body) : Option MenuItemUpdate := do
  let name ← patchField asOptStr "name" body
  let description ← patchField asOptStr "description" body
  let price ← patchField asOptNum "price" body
  let category ← patchField asOptStr "category" body
  let tag ← patchField asOptStr "tag" body
  let image_url ← patchField asOptStr "image_url" body
  let is_available ← patchField asOptBool "is_available" body
  some { name := name, description := description, price := price,
         category := category, tag := tag, image_url := image_url,
         is_available := is_available }

/-- Pydantic's response-model validation of a returned document against
`MenuItem`: the required fields must be present and non-null; `created_at`
is accepted either as a native datetime or as an ISO-8601 string, which
pydantic parses back to a datetime. -/
def timeOf : CreatedAtVal → Time
  | .isoStr t => t
  | .dt t => t

def toMenuItem (d : Doc) : Option MenuItem := do
  let name ← d.name
  let description ← d.description
  let price ← d.price
  let category ← d.category
  let avail ← d.is_available
  some { id := d.id, name := name, description := description, price := price,
         category := category, tag := d.tag, image_url := d.image_url,
         is_available := avail, created_at := timeOf d.created_at }

/-! ### Helper lemmas about the modelled driver operations -/

lemma applySet_id (u : MenuItemUpdate) (d : Doc) : (applySet u d).id = d.id := rfl

lemma applySet_created_at (u : MenuItemUpdate) (d : Doc) :
    (applySet u d).created_at = d.created_at := rfl

lemma find_one_nil (i : String) : find_one i [] = none := rfl

lemma find_one_cons (i : String) (e : Doc) (es : List Doc) :
    find_one i (e :: es) = if e.id = i then some e else find_one i es := by
  by_cases h : e.id = i
  · simp [find_one, List.find?, h]
  · have hb : (e.id == i) = false := by simp [h]
    simp [find_one, List.find?, hb, h]

lemma Patch.eq_unset_of_not_isSet {p : Patch α} (h : p.isSet = false) : p = .unset := by
  cases p <;> simp [Patch.isSet] at h ⊢

lemma applySet_of_not_nonEmpty {u : MenuItemUpdate} (d : Doc)
    (h : updateNonEmpty u = false) : applySet u d = d := by
  simp only [updateNonEmpty, Bool.or_eq_false_iff] at h
  obtain ⟨⟨⟨⟨⟨⟨h1, h2⟩, h3⟩, h4⟩, h5⟩, h6⟩, h7⟩ := h
  obtain ⟨n, de, p, c, t, im, a⟩ := u
  simp only at h1 h2 h3 h4 h5 h6 h7
  rw [Patch.eq_unset_of_not_isSet h1] at *
  rw [Patch.eq_unset_of_not_isSet h2, Patch.eq_unset_of_not_isSet h3,
    Patch.eq_unset_of_not_isSet h4, Patch.eq_unset_of_not_isSet h5,
    Patch.eq_unset_of_not_isSet h6, Patch.eq_unset_of_not_isSet h7]
  rfl

lemma find_one_update_one {i : String} (u : MenuItemUpdate) :
    ∀ {st : List Doc} {d : Doc}, find_one i st = some d →
      find_one i (update_one i u st) = some (applySet u d)
  | [], d, h => by simp [find_one] at h
  | e :: es, d, h => by
    rw [find_one_cons] at h
    by_cases he : e.id = i
    · rw [if_pos he] at h
      cases h
      simp [update_one, he, find_one_cons, applySet_id]
    · rw [if_neg he] at h
      simp only [update_one, he, if_neg, beq_iff_eq, if_false]
      rw [find_one_cons, if_neg he]
      exact find_one_update_one u h

lemma mem_update_one {i : String} {u : MenuItemUpdate} :
    ∀ {st : List Doc} {e : Doc}, e ∈ st → e.id ≠ i → e ∈ update_one i u st
  | [], e, h, _ => absurd h (by simp)
  | d :: ds, e, h, hne => by
    rcases List.mem_cons.mp h with rfl | hm
    · rw [update_one, if_neg (by simp [hne])]
      exact List.mem_cons_self _ _
    · by_cases hd : d.id = i
      · rw [update_one, if_pos (by simp [hd])]
        exact List.mem_cons_of_mem _ hm
      · rw [update_one, if_neg (by simp [hd])]
        exact List.mem_cons_of_mem _ (mem_update_one hm hne)

lemma delete_one_of_none {i : String} :
    ∀ {st : List Doc}, find_one i st = none → delete_one i st = (0, st)
  | [], _ => rfl
  | e :: es, h => by
    rw [find_one_cons] at h
    by_cases he : e.id = i
    · rw [if_pos he] at h; cases h
    · rw [if_neg he] at h
      simp [delete_one, he, delete_one_of_none h]

lemma delete_one_count_zero {i : String} :
    ∀ {st : List Doc}, (delete_one i st).1 = 0 → (delete_one i st).2 = st
  | [], _ => rfl
  | e :: es, h => by
    by_cases he : e.id = i
    · simp [delete_one, he] at h
    · simp only [delete_one, he, if_neg, beq_iff_eq, if_false] at h ⊢
      rw [delete_one_count_zero h]

lemma delete_one_length {i : String} :
    ∀ {st : List Doc}, (delete_one i st).1 = 1 →
      (delete_one i st).2.length + 1 = st.length
  | [], h => by simp [delete_one] at h
  | e :: es, h => by
    by_cases he : e.id = i
    · simp [delete_one, he]
    · rw [delete_one, if_neg (by simp [he])] at h ⊢
      simp only [List.length_cons] at h ⊢
      rw [← delete_one_length h]

lemma delete_one_unique {i : String} :
    ∀ {st : List Doc}, (st.filter (fun d => d.id == i)).length = 1 →
      (delete_one i st).1 = 1 ∧ find_one i (delete_one i st).2 = none
  | [], h => by simp at h
  | e :: es, h => by
    by_cases he : e.id = i
    · rw [List.filter_cons, if_pos (by simp [he])] at h
      simp only [List.length_cons, Nat.add_right_cancel_iff, Nat.add_eq_zero] at h
      have hnil : es.filter (fun d => d.id == i) = [] :=
        List.length_eq_zero.mp (by omega)
      have hnone : find_one i es = none := by
        rw [find_one, List.find?_eq_none]
        intro x hx
        have := List.filter_eq_nil_iff.mp hnil x hx
        simpa using this
      rw [delete_one, if_pos (by simp [he])]
      exact ⟨rfl, hnone⟩
    · rw [List.filter_cons, if_neg (by simp [he])] at h
      obtain ⟨h1, h2⟩ := delete_one_unique h
      rw [delete_one, if_neg (by simp [he])]
      refine ⟨h1, ?_⟩
      simpa [find_one_cons, he] using h2

lemma find_one_append {i : String} :
    ∀ {st : List Doc} (l : List Doc), find_one i st = none →
      find_one i (st ++ l) = find_one i l
  | [], l, _ => rfl
  | e :: es, l, h => by
    rw [find_one_cons] at h
    by_cases he : e.id = i
    · rw [if_pos he] at h; cases h
    · rw [if_neg he] at h
      rw [List.cons_append, find_one_cons, if_neg he]
      exact find_one_append l h

/-! ### Helper lemmas about body parsing -/

lemma lookupKey_cons_ne {k k' : String} (h : k ≠ k') (v : JVal) (body : Body) :
    lookupKey k' ((k, v) :: body) = lookupKey k' body := by
  have hb : (k == k') = false := by simp [h]
  simp [lookupKey, List.find?, hb]

lemma parseCreate_cons_unknown {k : String} (v : JVal) (body : Body)
    (h : k ∉ (["name", "description", "price", "category", "tag",
      "image_url", "is_available"] : List String)) :
    parseCreate ((k, v) :: body) = parseCreate body := by
  simp only [List.mem_cons, not_or] at h
  obtain ⟨h1, h2, h3, h4, h5, h6, h7, -⟩ := h
  simp only [parseCreate, reqField, optField,
    lookupKey_cons_ne h1 v body, lookupKey_cons_ne h2 v body,
    lookupKey_cons_ne h3 v body, lookupKey_cons_ne h4 v body,
    lookupKey_cons_ne h5 v body, lookupKey_cons_ne h6 v body,
    lookupKey_cons_ne h7 v body]

lemma parseUpdate_cons_unknown {k : String} (v : JVal) (body : Body)
    (h : k ∉ (["name", "description", "price", "category", "tag",
      "image_url", "is_available"] : List String)) :
    parseUpdate ((k, v) :: body) = parseUpdate body := by
  simp only [List.mem_cons, not_or] at h
  obtain ⟨h1, h2, h3, h4, h5, h6, h7, -⟩ := h
  simp only [parseUpdate, patchField,
    lookupKey_cons_ne h1 v body, lookupKey_cons_ne h2 v body,
    lookupKey_cons_ne h3 v body, lookupKey_cons_ne h4 v body,
    lookupKey_cons_ne h5 v body, lookupKey_cons_ne h6 v body,
    lookupKey_cons_ne h7 v body]

lemma parseCreate_defaults {body : Body} {inp : MenuItemCreate}
    (hp : parseCreate body = some inp) :
    (lookupKey "tag" body = none → inp.tag = none) ∧
    (lookupKey "image_url" body = none → inp.image_url = none) ∧
    (lookupKey "is_available" body = none → inp.is_available = true) := by
  simp only [parseCreate, bind, Option.bind_eq_some] at hp
  obtain ⟨nm, hnm, ds, hds, pr, hpr, ct, hct, tg, htg, iu, hiu, av, hav, hsome⟩ := hp
  cases hsome
  refine ⟨fun ht => ?_, fun hi => ?_, fun ha => ?_⟩
  · rw [optField, ht] at htg
    cases htg
    rfl
  · rw [optField, hi] at hiu
    cases hiu
    rfl
  · rw [optField, ha] at hav
    cases hav
    rfl

/-! ### Concrete sample data used by the witnesses -/

def sampleDoc : Doc :=
  { id := "abc"
    name := some "Test Burger"
    description := some "d"
    price := (9.5 : Price)
    category := some "burger"
    tag := none
    image_url := none
    is_available := some true
    created_at := .isoStr 100 }

def priceOnly : MenuItemUpdate := { price := .set (some (10 : Price)) }

def sampleCreate : MenuItemCreate :=
  { name := "Test Burger", description := "d", price := (9.5 : Price),
    category := "burger" }

/-! ### The claims -/

/-- C1: for every id string matching no stored document, the three operations
get-by-id, update and delete each fail with NotFound — HTTP status 404 and
detail "Item not found" — leaving the store as it was, rather than succeeding
or returning an empty result. -/
theorem C1_missing_id_not_found (st : List Doc) (item_id : String)
    (u : MenuItemUpdate) (h : find_one item_id st = none) :
    notFoundErr.status = 404 ∧ notFoundErr.detail = "Item not found" ∧
    get_menu_item st item_id = (.error notFoundErr, st) ∧
    update_menu_item st item_id u = (.error notFoundErr, st) ∧
    delete_menu_item st item_id = (.error notFoundErr, st) := by
  refine ⟨rfl, rfl, ?_, ?_, ?_⟩
  · simp [get_menu_item, h]
  · simp [update_menu_item, h]
  · simp [delete_menu_item, delete_one_of_none h]

theorem C1_witness :
    find_one "zz" [sampleDoc] = none ∧
    (notFoundErr.status = 404 ∧ notFoundErr.detail = "Item not found" ∧
      get_menu_item [sampleDoc] "zz" = (.error notFoundErr, [sampleDoc]) ∧
      update_menu_item [sampleDoc] "zz" {} = (.error notFoundErr, [sampleDoc]) ∧
      delete_menu_item [sampleDoc] "zz" = (.error notFoundErr, [sampleDoc])) :=
  ⟨rfl, C1_missing_id_not_found [sampleDoc] "zz" {} rfl⟩

/-- C6: the list operation returns at most 1000 items for every store state;
its length is exactly `min st.length 1000`, so documents beyond the bound are
silently omitted. -/
theorem C6_list_capped_at_1000 (st : List Doc) :
    (get_menu_items st).length ≤ 1000 ∧
    (get_menu_items st).length = min st.length 1000 := by
  constructor
  · simp [get_menu_items]
  · simp [get_menu_items]
    omega

/-- C3: seeding with any prior collection contents first deletes every
existing item and then inserts the fixed four-record seed set: the resulting
collection is exactly `initial_items` — of size 4 regardless of the prior
size — each record carrying its freshly generated id and its own current
timestamp, and the handler reports the count. -/
theorem C3_seed_destructive (ids : Fin 4 → String) (times : Fin 4 → Time)
    (st : List Doc) :
    (seed_menu ids times st).2 = delete_many_all st ++ initial_items ids times ∧
    (seed_menu ids times st).2 = initial_items ids times ∧
    (seed_menu ids times st).2.length = 4 ∧
    (seed_menu ids times st).2.map Doc.id = [ids 0, ids 1, ids 2, ids 3] ∧
    (seed_menu ids times st).2.map Doc.created_at =
      [.isoStr (times 0), .isoStr (times 1), .isoStr (times 2), .isoStr (times 3)] ∧
    (seed_menu ids times st).1 = "Seeded 4 menu items successfully" := by
  refine ⟨rfl, rfl, rfl, rfl, rfl, ?_⟩
  have hlen : (initial_items ids times).length = 4 := rfl
  simp only [seed_menu, hlen]
  rfl

/-- C8: an update supplying no fields (every field unset, so
`model_dump(exclude_unset=True)` is empty) issues no write — the collection
is returned exactly as it was — and still answers with the item's current
record. -/
theorem C8_empty_patch_noop (st : List Doc) (item_id : String)
    (u : MenuItemUpdate) (d : Doc) (h : find_one item_id st = some d)
    (hempty : updateNonEmpty u = false) :
    update_menu_item st item_id u =
      (.ok { d with created_at := normCreatedAt d.created_at }, st) := by
  simp [update_menu_item, h, hempty]

theorem C8_witness :
    find_one "abc" [sampleDoc] = some sampleDoc ∧
    updateNonEmpty {} = false ∧
    update_menu_item [sampleDoc] "abc" {} =
      (.ok { sampleDoc with created_at := normCreatedAt sampleDoc.created_at },
        [sampleDoc]) :=
  ⟨rfl, rfl, C8_empty_patch_noop [sampleDoc] "abc" {} sampleDoc rfl rfl⟩

/-- C7: when exactly one stored document carries the id, the first delete
succeeds with the message "Item deleted successfully" and removes exactly one
document, and the second delete of the same id fails with NotFound and
removes nothing. -/
theorem C7_delete_twice (st : List Doc) (item_id : String)
    (huniq : (st.filter (fun d => d.id == item_id)).length = 1) :
    delete_menu_item st item_id =
      (.ok "Item deleted successfully", (delete_one item_id st).2) ∧
    (delete_one item_id st).2.length + 1 = st.length ∧
    delete_menu_item (delete_one item_id st).2 item_id =
      (.error notFoundErr, (delete_one item_id st).2) := by
  obtain ⟨hc, hn⟩ := delete_one_unique huniq
  refine ⟨?_, delete_one_length hc, ?_⟩
  · simp [delete_menu_item, hc]
  · simp [delete_menu_item, delete_one_of_none hn]

theorem C7_witness :
    (([sampleDoc] : List Doc).filter (fun d => d.id == "abc")).length = 1 ∧
    delete_menu_item [sampleDoc] "abc" =
      (.ok "Item deleted successfully", (delete_one "abc" [sampleDoc]).2) ∧
    delete_menu_item (delete_one "abc" [sampleDoc]).2 "abc" =
      (.error notFoundErr, (delete_one "abc" [sampleDoc]).2) := by
  have h := C7_delete_twice [sampleDoc] "abc" (by decide)
  exact ⟨by decide, h.1, h.2.2⟩

/-- C10: every error outcome of update or delete leaves the store completely
unchanged: an erroring update is a NotFound raised before any write, and an
erroring delete matched zero documents and removed nothing. -/
theorem C10_error_preserves_state (st : List Doc) (item_id : String)
    (u : MenuItemUpdate) :
    (∀ e : Err, (update_menu_item st item_id u).1 = .error e →
      e = notFoundErr ∧ (update_menu_item st item_id u).2 = st) ∧
    (∀ e : Err, (delete_menu_item st item_id).1 = .error e →
      e = notFoundErr ∧ (delete_menu_item st item_id).2 = st) := by
  constructor
  · intro e he
    cases h : find_one item_id st with
    | none =>
      constructor
      · simp [update_menu_item, h] at he
        exact he.symm
      · simp [update_menu_item, h]
    | some d =>
      by_cases hne : updateNonEmpty u
      · have hf := find_one_update_one u h
        simp [update_menu_item, h, hne, hf] at he
      · simp [update_menu_item, h, hne] at he
  · intro e he
    by_cases hz : (delete_one item_id st).1 = 0
    · have h2 := delete_one_count_zero hz
      constructor
      · simp [delete_menu_item, hz] at he
        exact he.symm
      · simp [delete_menu_item, hz, h2]
    · simp [delete_menu_item, hz] at he

theorem C10_witness :
    (update_menu_item [sampleDoc] "zz" {}).1 = .error notFoundErr ∧
    (update_menu_item [sampleDoc] "zz" {}).2 = [sampleDoc] ∧
    (delete_menu_item [sampleDoc] "zz").1 = .error notFoundErr ∧
    (delete_menu_item [sampleDoc] "zz").2 = [sampleDoc] := by
  obtain ⟨hu, hd⟩ := C10_error_preserves_state [sampleDoc] "zz" {}
  exact ⟨rfl, (hu notFoundErr rfl).2, rfl, (hd notFoundErr rfl).2⟩

/-- C2: for every existing item and every partial update, exactly the fields
explicitly supplied in the request change and every other field keeps its
prior value; `id` and `created_at` are never altered, and `id` or
`created_at` keys in the request body are ignored by the input model. -/
theorem C2_partial_update_exact_fields (st : List Doc) (item_id : String)
    (u : MenuItemUpdate) (d : Doc) (h : find_one item_id st = some d) :
    (∃ st', update_menu_item st item_id u =
        (.ok { applySet u d with
                created_at := normCreatedAt (applySet u d).created_at }, st') ∧
      find_one item_id st' = some (applySet u d) ∧
      ∀ e ∈ st, e.id ≠ item_id → e ∈ st') ∧
    (applySet u d).id = d.id ∧
    (applySet u d).created_at = d.created_at ∧
    (u.name = .unset → (applySet u d).name = d.name) ∧
    (∀ v, u.name = .set v → (applySet u d).name = v) ∧
    (u.description = .unset → (applySet u d).description = d.description) ∧
    (∀ v, u.description = .set v → (applySet u d).description = v) ∧
    (u.price = .unset → (applySet u d).price = d.price) ∧
    (∀ v, u.price = .set v → (applySet u d).price = v) ∧
    (u.category = .unset → (applySet u d).category = d.category) ∧
    (∀ v, u.category = .set v → (applySet u d).category = v) ∧
    (u.tag = .unset → (applySet u d).tag = d.tag) ∧
    (∀ v, u.tag = .set v → (applySet u d).tag = v) ∧
    (u.image_url = .unset → (applySet u d).image_url = d.image_url) ∧
    (∀ v, u.image_url = .set v → (applySet u d).image_url = v) ∧
    (u.is_available = .unset → (applySet u d).is_available = d.is_available) ∧
    (∀ v, u.is_available = .set v → (applySet u d).is_available = v) ∧
    (∀ (v : JVal) (body : Body),
      parseUpdate (("id", v) :: body) = parseUpdate body) ∧
    (∀ (v : JVal) (body : Body),
      parseUpdate (("created_at", v) :: body) = parseUpdate body) := by
  refine ⟨?_, rfl, rfl,
    fun hv => by simp [applySet, hv, Patch.apply],
    fun v hv => by simp [applySet, hv, Patch.apply],
    fun hv => by simp [applySet, hv, Patch.apply],
    fun v hv => by simp [applySet, hv, Patch.apply],
    fun hv => by simp [applySet, hv, Patch.apply],
    fun v hv => by simp [applySet, hv, Patch.apply],
    fun hv => by simp [applySet, hv, Patch.apply],
    fun v hv => by simp [applySet, hv, Patch.apply],
    fun hv => by simp [applySet, hv, Patch.apply],
    fun v hv => by simp [applySet, hv, Patch.apply],
    fun hv => by simp [applySet, hv, Patch.apply],
    fun v hv => by simp [applySet, hv, Patch.apply],
    fun hv => by simp [applySet, hv, Patch.apply],
    fun v hv => by simp [applySet, hv, Patch.apply],
    fun v body => parseUpdate_cons_unknown v body (by decide),
    fun v body => parseUpdate_cons_unknown v body (by decide)⟩
  by_cases hne : updateNonEmpty u = true
  · refine ⟨update_one item_id u st, ?_,
      find_one_update_one u h, fun e he hne2 => mem_update_one he hne2⟩
    simp [update_menu_item, h, hne, find_one_update_one u h]
  · have hne' : updateNonEmpty u = false := by simpa using hne
    have hd := applySet_of_not_nonEmpty d hne'
    refine ⟨st, ?_, ?_, fun e he _ => he⟩
    · rw [hd]
      simp [update_menu_item, h, hne']
    · rw [hd]
      exact h

theorem C2_witness :
    find_one "abc" [sampleDoc] = some sampleDoc ∧
    (applySet priceOnly sampleDoc).price = some (10 : Price) ∧
    (applySet priceOnly sampleDoc).name = sampleDoc.name ∧
    (applySet priceOnly sampleDoc).created_at = sampleDoc.created_at ∧
    (applySet priceOnly sampleDoc).id = sampleDoc.id := by
  obtain ⟨-, hid, hca, hnu, -, -, -, -, hps, -⟩ :=
    C2_partial_update_exact_fields [sampleDoc] "abc" priceOnly sampleDoc rfl
  exact ⟨rfl, hps (some (10 : Price)) rfl, hnu rfl, hca, hid⟩

/-- C4: creating an item from any valid input and immediately fetching it by
the returned id yields a stored document that validates, field for field, to
exactly the created record; the timestamp is serialized to an ISO-8601
string on write and parsed back on read. -/
theorem C4_create_then_get_roundtrip (genId : String) (now : Time)
    (st : List Doc) (inp : MenuItemCreate)
    (hfresh : find_one genId st = none) :
    ∃ fetched : Doc,
      get_menu_item (create_menu_item genId now st inp).2 genId =
        (.ok fetched, (create_menu_item genId now st inp).2) ∧
      toMenuItem fetched = some (create_menu_item genId now st inp).1 := by
  have hf : find_one genId (create_menu_item genId now st inp).2 =
      some { id := genId, name := some inp.name,
             description := some inp.description, price := some inp.price,
             category := some inp.category, tag := inp.tag,
             image_url := inp.image_url, is_available := some inp.is_available,
             created_at := .isoStr now } := by
    simp only [create_menu_item]
    rw [find_one_append _ hfresh, find_one_cons]
    simp
  refine ⟨{ id := genId, name := some inp.name,
            description := some inp.description, price := some inp.price,
            category := some inp.category, tag := inp.tag,
            image_url := inp.image_url, is_available := some inp.is_available,
            created_at := .dt now }, ?_, ?_⟩
  · simp [get_menu_item, hf, normCreatedAt]
  · rfl

theorem C4_witness :
    find_one "new" ([] : List Doc) = none ∧
    ∃ fetched : Doc,
      get_menu_item (create_menu_item "new" 5 [] sampleCreate).2 "new" =
        (.ok fetched, (create_menu_item "new" 5 [] sampleCreate).2) ∧
      toMenuItem fetched = some (create_menu_item "new" 5 [] sampleCreate).1 :=
  ⟨rfl, C4_create_then_get_roundtrip "new" 5 [] sampleCreate rfl⟩

/-- C5: every create returns the freshly generated (non-empty) id and a
`created_at` equal to the clock reading taken during the call, hence within
the call's start and end bounds; when `tag`, `image_url` and `is_available`
are omitted from the request body, the returned record has `tag` null,
`image_url` null and `is_available` true. -/
theorem C5_create_id_time_defaults (genId : String) (now t0 t1 : Time)
    (st : List Doc) (inp : MenuItemCreate)
    (hid : genId ≠ "") (h0 : t0 ≤ now) (h1 : now ≤ t1) :
    (create_menu_item genId now st inp).1.id = genId ∧
    (create_menu_item genId now st inp).1.id ≠ "" ∧
    t0 ≤ (create_menu_item genId now st inp).1.created_at ∧
    (create_menu_item genId now st inp).1.created_at ≤ t1 ∧
    (create_menu_item genId now st inp).1.tag = inp.tag ∧
    (create_menu_item genId now st inp).1.image_url = inp.image_url ∧
    (create_menu_item genId now st inp).1.is_available = inp.is_available ∧
    (∀ body : Body, parseCreate body = some inp →
      (lookupKey "tag" body = none →
        (create_menu_item genId now st inp).1.tag = none) ∧
      (lookupKey "image_url" body = none →
        (create_menu_item genId now st inp).1.image_url = none) ∧
      (lookupKey "is_available" body = none →
        (create_menu_item genId now st inp).1.is_available = true)) := by
  refine ⟨rfl, hid, h0, h1, rfl, rfl, rfl, ?_⟩
  intro body hp
  obtain ⟨ht, hi, ha⟩ := parseCreate_defaults hp
  exact ⟨fun hk => ht hk, fun hk => hi hk, fun hk => ha hk⟩

theorem C5_witness :
    (("id1" : String) ≠ "" ∧ (4 : Time) ≤ 5 ∧ (5 : Time) ≤ 6) ∧
    (create_menu_item "id1" 5 [] sampleCreate).1.id = "id1" ∧
    (create_menu_item "id1" 5 [] sampleCreate).1.id ≠ "" ∧
    (4 : Time) ≤ (create_menu_item "id1" 5 [] sampleCreate).1.created_at ∧
    (create_menu_item "id1" 5 [] sampleCreate).1.created_at ≤ 6 ∧
    (create_menu_item "id1" 5 [] sampleCreate).1.tag = none ∧
    (create_menu_item "id1" 5 [] sampleCreate).1.image_url = none ∧
    (create_menu_item "id1" 5 [] sampleCreate).1.is_available = true := by
  obtain ⟨h1, h2, h3, h4, h5, h6, h7, -⟩ :=
    C5_create_id_time_defaults "id1" 5 4 6 [] sampleCreate
      (by decide) (by decide) (by decide)
  exact ⟨⟨by decide, by decide, by decide⟩, h1, h2, h3, h4, h5, h6, h7⟩

/-- C9: unknown or extra keys in a create or update request body are
ignored: parsing with the extra key yields the same model as without it, so
neither the stored document nor the response — both built from the parsed
model alone — can contain it. -/
theorem C9_unknown_keys_ignored (k : String) (v : JVal) (body : Body)
    (h : k ∉ (["name", "description", "price", "category", "tag",
      "image_url", "is_available"] : List String)) :
    parseCreate ((k, v) :: body) = parseCreate body ∧
    parseUpdate ((k, v) :: body) = parseUpdate body ∧
    ∀ (genId : String) (now : Time) (st : List Doc),
      (parseCreate ((k, v) :: body)).map (create_menu_item genId now st) =
        (parseCreate body).map (create_menu_item genId now st) := by
  refine ⟨parseCreate_cons_unknown v body h, parseUpdate_cons_unknown v body h, ?_⟩
  intro genId now st
  rw [parseCreate_cons_unknown v body h]

def bodyC : Body :=
  [("name", .jstr "Test Burger"), ("description", .jstr "d"),
   ("price", .jnum (9.5 : Rat)), ("category", .jstr "burger")]

theorem C9_witness :
    ("extra" : String) ∉ (["name", "description", "price", "category", "tag",
      "image_url", "is_available"] : List String) ∧
    parseCreate (("extra", JVal.jnull) :: bodyC) = parseCreate bodyC ∧
    parseUpdate (("extra", JVal.jnull) :: bodyC) = parseUpdate bodyC := by
  have h := C9_unknown_keys_ignored "extra" .jnull bodyC (by decide)
  exact ⟨by decide, h.1, h.2.1⟩
